import Mathlib

set_option maxRecDepth 8192

/-!
Verification of the publication-feed renderer and interaction handlers of the
ResPredAI website (src/js/main.js), as a shallow embedding in Lean 4.

JavaScript values that flow through the renderer (record fields may be
absent, null, strings or numbers) are modelled by `JSVal`; truthiness and
string coercion follow the JavaScript rules for those four shapes.  DOM
elements are modelled by their observable state (`display`, `innerHTML`);
the fetch outcome is an explicit parameter of `loadPublications`.
-/

/-- A JavaScript value as it can appear in a publication record field:
absent (`undefined`), `null`, a string, or a number. -/
inductive JSVal where
  | undef
  | null
  | str (s : String)
  | num (n : Int)
deriving DecidableEq, Repr

/-- JavaScript truthiness for the values of `JSVal`:
`undefined` and `null` are falsy, a string is truthy iff non-empty,
a number is truthy iff non-zero. -/
def truthy : JSVal → Bool
  | JSVal.undef => false
  | JSVal.null => false
  | JSVal.str s => s ≠ ""
  | JSVal.num n => n ≠ 0

/-- JavaScript string coercion for the values of `JSVal`
(as performed by string concatenation and by `div.textContent = text`). -/
def jsToString : JSVal → String
  | JSVal.undef => "undefined"
  | JSVal.null => "null"
  | JSVal.str s => s
  | JSVal.num n => toString n

/-- A publication record as read from `data/publications.json`.
Every field is a `JSVal` since any of them may be absent in the JSON. -/
structure Paper where
  title : JSVal
  authors : JSVal
  journal : JSVal
  year : JSVal
  doi : JSVal
  url : JSVal
deriving DecidableEq, Repr

/-- The parsed response body: `data.citingPapers` may be absent (`none`). -/
structure JSData where
  citingPapers : Option (List Paper)
deriving DecidableEq, Repr

/-! ### HTML escaping (`escapeHtml` in main.js)

`escapeHtml` assigns the text to `div.textContent` and reads back
`div.innerHTML`.  The HTML fragment-serialization algorithm escapes, in
text nodes, the characters `&`, `<`, `>` and U+00A0 (no-break space);
every other character is passed through unchanged. -/

/-- Serialization of one character of a DOM text node. -/
def escChar (c : Char) : List Char :=
  if c = '&' then ['&', 'a', 'm', 'p', ';']
  else if c = '<' then ['&', 'l', 't', ';']
  else if c = '>' then ['&', 'g', 't', ';']
  else if c = '\u00A0' then ['&', 'n', 'b', 's', 'p', ';']
  else [c]

/-- Serialization of a DOM text node (list form). -/
def escList : List Char → List Char
  | [] => []
  | c :: rest => escChar c ++ escList rest

/-- Result of `div.textContent = s; div.innerHTML` for a (truthy) string `s`. -/
def escapeHtmlString (s : String) : String :=
  String.mk (escList s.data)

/-- The `escapeHtml` function of main.js: falsy inputs give the empty
string, otherwise the value is coerced to a string and HTML-escaped. -/
def escapeHtml (v : JSVal) : String :=
  if truthy v then escapeHtmlString (jsToString v) else ""

/-- Inverse of text-node serialization: decodes the entity references
`&amp;` `&lt;` `&gt;` `&nbsp;`, leaving every other character unchanged.
This is how a browser recovers the text content of the rendered markup. -/
def unescList : List Char → List Char
  | [] => []
  | c :: rest =>
    if c = '&' then
      if rest.take 4 = ['a', 'm', 'p', ';'] then '&' :: unescList (rest.drop 4)
      else if rest.take 3 = ['l', 't', ';'] then '<' :: unescList (rest.drop 3)
      else if rest.take 3 = ['g', 't', ';'] then '>' :: unescList (rest.drop 3)
      else if rest.take 5 = ['n', 'b', 's', 'p', ';'] then '\u00A0' :: unescList (rest.drop 5)
      else c :: unescList rest
    else c :: unescList rest
termination_by l => l.length
decreasing_by all_goals (simp [List.length_drop]; try omega)

/-- String form of `unescList`. -/
def unescapeText (s : String) : String :=
  String.mk (unescList s.data)

/-! ### The publication card (`createPublicationCard` in main.js)

The card is one JavaScript string literal with embedded expressions; the
literal chunks below are exactly the chunks of the source (the `\` line
continuations elide the newlines but keep the next line's indentation). -/

def cardLit1 : String :=
  "        <article class=\"publication-card\" data-aos=\"fade-up\" data-aos-delay=\""

def cardLit2 : String := "\">            <h4>"

def cardLit3 : String := "</h4>            <p class=\"authors\">"

def cardLit4 : String := "</p>            <p class=\"venue\">"

def cardLit5 : String := ", "

def cardLit6 : String := "</p>            "

def linkLit1 : String := "<a href=\""

def linkLit2 : String :=
  "\" class=\"doi-link\" target=\"_blank\" rel=\"noopener\">                <svg xmlns=\"http://www.w3.org/2000/svg\" viewBox=\"0 0 24 24\" fill=\"none\" stroke=\"currentColor\" stroke-width=\"2\" width=\"14\" height=\"14\">                    <path d=\"M18 13v6a2 2 0 0 1-2 2H5a2 2 0 0 1-2-2V8a2 2 0 0 1 2-2h6\"/>                    <polyline points=\"15 3 21 3 21 9\"/>                    <line x1=\"10\" y1=\"14\" x2=\"21\" y2=\"3\"/>                </svg>                DOI: "

def linkLit3 : String := "            </a>"

def cardLit7 : String := "        </article>    "

/-- The chunk `linkLit2` without its leading quote character (helper for stating
where the `href` attribute value ends). -/
def linkLit2R : String :=
  " class=\"doi-link\" target=\"_blank\" rel=\"noopener\">                <svg xmlns=\"http://www.w3.org/2000/svg\" viewBox=\"0 0 24 24\" fill=\"none\" stroke=\"currentColor\" stroke-width=\"2\" width=\"14\" height=\"14\">                    <path d=\"M18 13v6a2 2 0 0 1-2 2H5a2 2 0 0 1-2-2V8a2 2 0 0 1 2-2h6\"/>                    <polyline points=\"15 3 21 3 21 9\"/>                    <line x1=\"10\" y1=\"14\" x2=\"21\" y2=\"3\"/>                </svg>                DOI: "

/-- The `doiUrl` local of `createPublicationCard`:
`paper.doi ? 'https://doi.org/' + paper.doi : paper.url || '#'`. -/
def doiUrlOf (paper : Paper) : String :=
  if truthy paper.doi then "https://doi.org/" ++ jsToString paper.doi
  else if truthy paper.url then jsToString paper.url
  else "#"

/-- The `createPublicationCard` function of main.js. -/
def createPublicationCard (paper : Paper) (index : Nat) : String :=
  let delay := 100 + index * 100
  let doiUrl := doiUrlOf paper
  cardLit1 ++ toString delay ++ cardLit2 ++ escapeHtml paper.title ++ cardLit3 ++
  escapeHtml paper.authors ++ cardLit4 ++ escapeHtml paper.journal ++ cardLit5 ++
  escapeHtml paper.year ++ cardLit6 ++
  (if truthy paper.doi then
      linkLit1 ++ doiUrl ++ linkLit2 ++ escapeHtml paper.doi ++ linkLit3
    else "") ++ cardLit7

/-- Rendering step `citingPapers.map(function(paper, index) ... )`: one card per record,
with the record's position passed as the index. -/
def renderCards (start : Nat) : List Paper → List String
  | [] => []
  | p :: rest => createPublicationCard p start :: renderCards (start + 1) rest

/-! ### The DOM regions touched by `loadPublications` -/

/-- Observable state of one DOM element. -/
structure ElemState where
  display : String
  innerHTML : String
deriving DecidableEq, Repr

/-- The two DOM regions the renderer touches; `none` models a page from
which the element is absent (`getElementById` returns `null`). -/
structure Dom where
  container : Option ElemState
  noPubMsg : Option ElemState
deriving DecidableEq, Repr

/-- Outcome of `fetch('data/publications.json')` followed by `.json()`:
the fetch may reject, return a non-ok status, deliver a body that fails
to parse, or deliver parsed data. -/
inductive FetchOutcome where
  | networkError
  | httpError
  | parseError
  | ok (data : JSData)
deriving DecidableEq, Repr

/-- The `loadPublications` routine of main.js, as a function from the
fetch outcome and the page's DOM state to (whether a fetch was issued,
the resulting DOM state).  The three failure outcomes all land in the
`catch` block; parsed data with a falsy `citingPapers` field or an empty
list takes the empty branch. -/
def loadPublications (outcome : FetchOutcome) (dom : Dom) : Bool × Dom :=
  match dom.container with
  | none => (false, dom)
  | some container =>
    match outcome with
    | FetchOutcome.ok data =>
      let citingPapers := data.citingPapers.getD []
      if citingPapers.length = 0 then
        (true, { container := some { container with display := "none" },
                 noPubMsg := dom.noPubMsg.map fun m => { m with display := "block" } })
      else
        (true, { container := some { display := "grid",
                                     innerHTML := String.join (renderCards 0 citingPapers) },
                 noPubMsg := dom.noPubMsg.map fun m => { m with display := "none" } })
    | _ =>
      (true, { container := some { container with display := "none" },
               noPubMsg := dom.noPubMsg.map fun m => { m with display := "block" } })

/-! ### Counting link elements in the card markup

A link element opens with the three characters `<a` followed by a space.
`linkStep` is the transition function of the obvious automaton
(state 0: nothing pending, 1: saw the opening angle bracket,
2: saw the bracket and the letter a); the first component accumulates
the number of completed occurrences. -/

def linkStep : Nat × Nat → Char → Nat × Nat := fun st c =>
  if c = '<' then (st.1, 1)
  else if st.2 = 1 ∧ c = 'a' then (st.1, 2)
  else if st.2 = 2 ∧ c = ' ' then (st.1 + 1, 0)
  else (st.1, 0)

/-- Number of link-element openings in a markup string. -/
def countLinkOpens (s : String) : Nat :=
  (s.data.foldl linkStep (0, 0)).1

/-! ### Clipboard copy (`copyToClipboard` in main.js)

`copyToClipboard` is an `async` function: an exception that escapes it
would surface as an unhandled promise rejection.  Exceptions are modelled
with `Except`; `navigator.clipboard.writeText` and `document.execCommand`
are modelled by their two observable behaviours (resolve/throw), chosen by
the environment `ClipEnv`.  `document.body` is a list of nodes; the
transient textarea gets an identifier fresh for the current body. -/

/-- A thrown JavaScript exception (the code never inspects it). -/
inductive JsErr where
  | writeFailed
  | execFailed
deriving DecidableEq, Repr

/-- The two toast messages `showToast` can display. -/
inductive Toast where
  | copied
  | failed
deriving DecidableEq, Repr

/-- Environment behaviour of the two clipboard primitives. -/
structure ClipEnv where
  clipboardWriteOk : Bool
  execCommandThrows : Bool
deriving DecidableEq, Repr

/-- A node of `document.body`, with enough identity to model
`removeChild` of a specific node. -/
structure BodyNode where
  id : Nat
  tag : String
  value : String
deriving DecidableEq, Repr

/-- An identifier not carried by any current body node. -/
def freshId (body : List BodyNode) : Nat :=
  (body.map BodyNode.id).foldr max 0 + 1

/-- Model of `document.body.appendChild`. -/
def appendChild (body : List BodyNode) (n : BodyNode) : List BodyNode :=
  body ++ [n]

/-- Model of `document.body.removeChild` of the node with the given identifier. -/
def removeChildById (body : List BodyNode) (i : Nat) : List BodyNode :=
  body.filter fun n => n.id ≠ i

/-- Model of `try a catch (e) handler`. -/
def tryCatchE {α : Type} (a : Except JsErr α) (handler : JsErr → Except JsErr α) :
    Except JsErr α :=
  match a with
  | Except.ok v => Except.ok v
  | Except.error e => handler e

/-- Model of `navigator.clipboard.writeText`: resolves or rejects per environment. -/
def navClipboardWriteText (env : ClipEnv) : Except JsErr Unit :=
  if env.clipboardWriteOk then Except.ok () else Except.error JsErr.writeFailed

/-- Model of `document.execCommand('copy')`: returns or throws per environment. -/
def execCommandCopy (env : ClipEnv) : Except JsErr Bool :=
  if env.execCommandThrows then Except.error JsErr.execFailed else Except.ok true

/-- The `copyToClipboard` function of main.js.  The result is the toast
that was shown and the final `document.body`; an `Except.error` result
would be an unhandled rejection. -/
def copyToClipboard (env : ClipEnv) (text : String) (body : List BodyNode) :
    Except JsErr (Toast × List BodyNode) :=
  tryCatchE
    ((navClipboardWriteText env).map fun _ => (Toast.copied, body))
    (fun _ =>
      let textArea : BodyNode := { id := freshId body, tag := "textarea", value := text }
      let body1 := appendChild body textArea
      let inner : Except JsErr Toast :=
        tryCatchE ((execCommandCopy env).map fun _ => Toast.copied)
          (fun _ => Except.ok Toast.failed)
      inner.bind fun toast => Except.ok (toast, removeChildById body1 textArea.id))

/-! ### Header scroll coalescing (`initHeaderScroll` in main.js)

The scroll handler records the scroll position, and schedules one
`requestAnimationFrame(updateHeader)` callback only when none is pending
(`ticking` false); `updateHeader` toggles the header class and clears
`ticking`.  The event-loop interleaving is modelled by a step function
over an explicit state: `scheduled` counts the pending callbacks, and a
`frame` event runs one pending callback if there is one. -/

/-- State of the scroll-coalescing machinery plus the header class. -/
structure ScrollState where
  lastScrollY : Int
  ticking : Bool
  scheduled : Nat
  headerScrolled : Bool
deriving DecidableEq, Repr

/-- State when the page loads. -/
def initScrollState : ScrollState :=
  { lastScrollY := 0, ticking := false, scheduled := 0, headerScrolled := false }

/-- The `updateHeader` callback, run at scroll position `y`. -/
def updateHeader (y : Int) (s : ScrollState) : ScrollState :=
  { s with headerScrolled := decide (y > 100), ticking := false }

/-- An event visible to the scroll machinery: a scroll event at position
`y`, or an animation frame at position `y` (which runs one pending
callback, if any). -/
inductive ScrollEvent where
  | scroll (y : Int)
  | frame (y : Int)
deriving DecidableEq, Repr

/-- One step of the scroll machinery. -/
def stepScroll (s : ScrollState) : ScrollEvent → ScrollState
  | ScrollEvent.scroll y =>
    let s1 := { s with lastScrollY := y }
    if !s1.ticking then { s1 with scheduled := s1.scheduled + 1, ticking := true } else s1
  | ScrollEvent.frame y =>
    if s.scheduled > 0 then updateHeader y { s with scheduled := s.scheduled - 1 } else s

/-- Run a sequence of events from a state. -/
def runEvents (s : ScrollState) (events : List ScrollEvent) : ScrollState :=
  events.foldl stepScroll s

/-- The coalescing invariant: at most one callback pending, and pending
exactly when `ticking` is set. -/
def ScrollInv (s : ScrollState) : Prop :=
  s.scheduled ≤ 1 ∧ (s.ticking = true ↔ s.scheduled = 1)

/-! ### Concrete inputs used by witnesses and counterexamples -/

/-- A well-formed record with a DOI. -/
def paperWithDoi : Paper :=
  { title := JSVal.str "Pred models", authors := JSVal.str "A. B.",
    journal := JSVal.str "J. Med.", year := JSVal.num 2024,
    doi := JSVal.str "10.1000/abc", url := JSVal.undef }

/-- A record without a DOI but with a URL. -/
def paperNoDoi : Paper :=
  { title := JSVal.str "Other work", authors := JSVal.str "C. D.",
    journal := JSVal.str "J. Other", year := JSVal.num 2023,
    doi := JSVal.undef, url := JSVal.str "https://example.org/p" }

/-- A record whose `doi` field is present but the empty string. -/
def paperEmptyDoi : Paper :=
  { paperWithDoi with doi := JSVal.str "" }

/-- A record whose `doi` value breaks out of the `href` attribute and
opens a second anchor element. -/
def paperDoiInjectsLink : Paper :=
  { paperWithDoi with doi := JSVal.str "x\"><a href=\"https://evil.example\">z</a>" }

/-- A record whose `doi` value breaks out of the `href` attribute and
injects an image element. -/
def paperDoiInjectsImg : Paper :=
  { paperWithDoi with doi := JSVal.str "x\"><img src=y>" }

/-- A record with every field absent. -/
def paperAllUndef : Paper :=
  { title := JSVal.undef, authors := JSVal.undef, journal := JSVal.undef,
    year := JSVal.undef, doi := JSVal.undef, url := JSVal.undef }

/-- A page with both expected regions present. -/
def domBoth : Dom :=
  { container := some { display := "grid", innerHTML := "" },
    noPubMsg := some { display := "none", innerHTML := "No publications" } }

/-- A page without the card container. -/
def domNoContainer : Dom :=
  { container := none,
    noPubMsg := some { display := "none", innerHTML := "No publications" } }

/-! ### Render-state predicates and the card template -/

/-- The page shows the feed: container displayed as a grid, message hidden. -/
def renderedStateP (d : Dom) : Prop :=
  ∃ c m, d.container = some c ∧ d.noPubMsg = some m ∧
    c.display = "grid" ∧ m.display = "none"

/-- The page shows the empty state: message shown, container hidden. -/
def emptyStateP (d : Dom) : Prop :=
  ∃ c m, d.container = some c ∧ d.noPubMsg = some m ∧
    c.display = "none" ∧ m.display = "block"

/-- The card markup as a template over already-filled slot values: the five
text slots (delay string, title, authors, journal, year, DOI display text)
and the href attribute value, which is spliced in verbatim. -/
def cardShell (delayStr titleHtml authorsHtml journalHtml yearHtml hrefVal doiHtml : String)
    (hasDoi : Bool) : String :=
  cardLit1 ++ delayStr ++ cardLit2 ++ titleHtml ++ cardLit3 ++ authorsHtml ++ cardLit4 ++
  journalHtml ++ cardLit5 ++ yearHtml ++ cardLit6 ++
  (if hasDoi then linkLit1 ++ hrefVal ++ linkLit2 ++ doiHtml ++ linkLit3 else "") ++ cardLit7

/-! ### Helper lemmas: strings, escaping, link counting -/

theorem sdata_append (a b : String) : (a ++ b).data = a.data ++ b.data := by
  cases a; cases b; rfl

theorem escChar_no_markup (c : Char) : '<' ∉ escChar c ∧ '>' ∉ escChar c := by
  unfold escChar
  repeat' split
  all_goals simp_all [eq_comm]

theorem escList_no_markup (l : List Char) : '<' ∉ escList l ∧ '>' ∉ escList l := by
  induction l with
  | nil => simp [escList]
  | cons c rest ih =>
    have hc := escChar_no_markup c
    simp [escList, List.mem_append]
    exact ⟨⟨hc.1, ih.1⟩, hc.2, ih.2⟩

theorem unescList_escList (l : List Char) : unescList (escList l) = l := by
  induction l with
  | nil => show unescList [] = []; simp [unescList]
  | cons c rest ih =>
    show unescList (escChar c ++ escList rest) = c :: rest
    by_cases h1 : c = '&'
    · subst h1
      show unescList ('&' :: 'a' :: 'm' :: 'p' :: ';' :: escList rest) = '&' :: rest
      rw [unescList]
      simp [List.take, List.drop, ih]
    by_cases h2 : c = '<'
    · subst h2
      show unescList ('&' :: 'l' :: 't' :: ';' :: escList rest) = '<' :: rest
      rw [unescList]
      simp [List.take, List.drop, ih]
    by_cases h3 : c = '>'
    · subst h3
      show unescList ('&' :: 'g' :: 't' :: ';' :: escList rest) = '>' :: rest
      rw [unescList]
      simp [List.take, List.drop, ih]
    by_cases h4 : c = ' '
    · subst h4
      show unescList ('&' :: 'n' :: 'b' :: 's' :: 'p' :: ';' :: escList rest) = ' ' :: rest
      rw [unescList]
      simp [List.take, List.drop, ih]
    · have he : escChar c = [c] := by simp [escChar, h1, h2, h3, h4]
      rw [he]
      show unescList (c :: escList rest) = c :: rest
      rw [unescList]
      simp [h1, ih]

theorem unescape_escape (s : String) : unescapeText (escapeHtmlString s) = s := by
  cases s with
  | mk data =>
    show String.mk (unescList (escList data)) = String.mk data
    rw [unescList_escList]

theorem foldl_linkStep_no_lt (l : List Char) (cnt : Nat) (h : '<' ∉ l) :
    l.foldl linkStep (cnt, 0) = (cnt, 0) := by
  induction l generalizing cnt with
  | nil => rfl
  | cons c rest ih =>
    have hc : ¬c = '<' := fun e => h (by simp [e])
    have hs : linkStep (cnt, 0) c = (cnt, 0) := by simp [linkStep, hc]
    rw [List.foldl_cons, hs]
    exact ih cnt (List.not_mem_of_not_mem_cons h)

theorem linkStep_shift (cnt s : Nat) (c : Char) :
    linkStep (cnt, s) c = ((linkStep (0, s) c).1 + cnt, (linkStep (0, s) c).2) := by
  simp only [linkStep]
  split_ifs <;> simp [Nat.add_comm]

theorem foldl_linkStep_shift (l : List Char) (cnt s : Nat) :
    l.foldl linkStep (cnt, s) =
      ((l.foldl linkStep (0, s)).1 + cnt, (l.foldl linkStep (0, s)).2) := by
  induction l generalizing cnt s with
  | nil => simp
  | cons c rest ih =>
    simp only [List.foldl_cons]
    cases h : linkStep (0, s) c with
    | mk d s2 =>
      rw [linkStep_shift, h]
      dsimp only
      rw [ih (d + cnt) s2, ih d s2]
      simp [Prod.ext_iff]
      omega

theorem digitChar_ne_lt (d : Nat) : Nat.digitChar d ≠ '<' := by
  by_cases hsmall : d < 16
  · interval_cases d <;> decide
  · have hstar : Nat.digitChar d = '*' := by
      unfold Nat.digitChar
      repeat rw [if_neg (by omega)]
    rw [hstar]
    decide

theorem toDigitsCore_ne_lt (b fuel : Nat) :
    ∀ (n : Nat) (acc : List Char), (∀ c ∈ acc, c ≠ '<') →
      ∀ c ∈ Nat.toDigitsCore b fuel n acc, c ≠ '<' := by
  induction fuel with
  | zero =>
    intro n acc hacc c hc
    exact hacc c (by simpa [Nat.toDigitsCore] using hc)
  | succ fuel ih =>
    intro n acc hacc c hc
    simp only [Nat.toDigitsCore] at hc
    split at hc
    · rcases List.mem_cons.mp hc with h | h
      · subst h; exact digitChar_ne_lt _
      · exact hacc _ h
    · refine ih _ _ ?_ c hc
      intro d hd
      rcases List.mem_cons.mp hd with h | h
      · subst h; exact digitChar_ne_lt _
      · exact hacc _ h

theorem natRepr_no_lt (n : Nat) : '<' ∉ (Nat.repr n).data := by
  intro h
  exact toDigitsCore_ne_lt 10 (n + 1) n [] (by simp) '<' h rfl

theorem escapeHtml_no_lt (v : JSVal) : '<' ∉ (escapeHtml v).data := by
  unfold escapeHtml
  split
  · exact (escList_no_markup _).1
  · simp

theorem fold_cardLit1 : List.foldl linkStep (0, 0) cardLit1.data = (0, 0) := by decide

theorem fold_cardLit2 : List.foldl linkStep (0, 0) cardLit2.data = (0, 0) := by decide

theorem fold_cardLit3 : List.foldl linkStep (0, 0) cardLit3.data = (0, 0) := by decide

theorem fold_cardLit4 : List.foldl linkStep (0, 0) cardLit4.data = (0, 0) := by decide

theorem fold_cardLit5 : List.foldl linkStep (0, 0) cardLit5.data = (0, 0) := by decide

theorem fold_cardLit6 : List.foldl linkStep (0, 0) cardLit6.data = (0, 0) := by decide

theorem fold_cardLit7 : List.foldl linkStep (0, 0) cardLit7.data = (0, 0) := by decide

theorem fold_linkLit1 : List.foldl linkStep (0, 0) linkLit1.data = (1, 0) := by decide

theorem fold_linkLit2 : List.foldl linkStep (0, 0) linkLit2.data = (0, 0) := by decide

theorem fold_linkLit3 : List.foldl linkStep (0, 0) linkLit3.data = (0, 0) := by decide

theorem fold_emptyStr : List.foldl linkStep (0, 0) ("" : String).data = (0, 0) := by decide

theorem fold_chunk_zero (A : List Char) (cnt : Nat)
    (hA : List.foldl linkStep (0, 0) A = (0, 0)) :
    List.foldl linkStep (cnt, 0) A = (cnt, 0) := by
  rw [foldl_linkStep_shift A cnt 0, hA]
  simp

theorem fold_chunk_no_lt (A : List Char) (cnt : Nat) (h : '<' ∉ A) :
    List.foldl linkStep (cnt, 0) A = (cnt, 0) :=
  foldl_linkStep_no_lt A cnt h

theorem toString_nat_eq (n : Nat) : (toString n : String) = Nat.repr n := rfl

theorem countLinkOpens_card_no_doi (p : Paper) (i : Nat) (h : truthy p.doi = false) :
    countLinkOpens (createPublicationCard p i) = 0 := by
  unfold countLinkOpens createPublicationCard
  simp only [h, Bool.false_eq_true, if_false, toString_nat_eq, sdata_append, List.foldl_append]
  rw [fold_cardLit1,
    fold_chunk_no_lt _ _ (natRepr_no_lt _),
    fold_chunk_zero _ _ fold_cardLit2,
    fold_chunk_no_lt _ _ (escapeHtml_no_lt _),
    fold_chunk_zero _ _ fold_cardLit3,
    fold_chunk_no_lt _ _ (escapeHtml_no_lt _),
    fold_chunk_zero _ _ fold_cardLit4,
    fold_chunk_no_lt _ _ (escapeHtml_no_lt _),
    fold_chunk_zero _ _ fold_cardLit5,
    fold_chunk_no_lt _ _ (escapeHtml_no_lt _),
    fold_chunk_zero _ _ fold_cardLit6,
    fold_chunk_zero _ _ fold_emptyStr,
    fold_chunk_zero _ _ fold_cardLit7]

theorem doiUrl_no_lt (p : Paper) (h : truthy p.doi = true)
    (hd : '<' ∉ (jsToString p.doi).data) : '<' ∉ (doiUrlOf p).data := by
  unfold doiUrlOf
  simp only [h, if_true, sdata_append, List.mem_append]
  rintro (hc | hc)
  · exact absurd hc (by decide)
  · exact hd hc

theorem countLinkOpens_card_doi (p : Paper) (i : Nat) (h : truthy p.doi = true)
    (hd : '<' ∉ (jsToString p.doi).data) :
    countLinkOpens (createPublicationCard p i) = 1 := by
  unfold countLinkOpens createPublicationCard
  simp only [h, if_true, toString_nat_eq, sdata_append, List.foldl_append]
  rw [fold_cardLit1,
    fold_chunk_no_lt _ _ (natRepr_no_lt _),
    fold_chunk_zero _ _ fold_cardLit2,
    fold_chunk_no_lt _ _ (escapeHtml_no_lt _),
    fold_chunk_zero _ _ fold_cardLit3,
    fold_chunk_no_lt _ _ (escapeHtml_no_lt _),
    fold_chunk_zero _ _ fold_cardLit4,
    fold_chunk_no_lt _ _ (escapeHtml_no_lt _),
    fold_chunk_zero _ _ fold_cardLit5,
    fold_chunk_no_lt _ _ (escapeHtml_no_lt _),
    fold_chunk_zero _ _ fold_cardLit6,
    fold_linkLit1,
    fold_chunk_no_lt _ _ (doiUrl_no_lt p h hd),
    fold_chunk_zero _ _ fold_linkLit2,
    fold_chunk_no_lt _ _ (escapeHtml_no_lt _),
    fold_chunk_zero _ _ fold_linkLit3,
    fold_chunk_zero _ _ fold_cardLit7]

theorem card_href_infix (p : Paper) (i : Nat) (h : truthy p.doi = true) :
    List.IsInfix ("<a href=\"https://doi.org/" ++ jsToString p.doi ++ "\"").data
      (createPublicationCard p i).data := by
  refine ⟨(cardLit1 ++ toString (100 + i * 100) ++ cardLit2 ++ escapeHtml p.title ++ cardLit3 ++
      escapeHtml p.authors ++ cardLit4 ++ escapeHtml p.journal ++ cardLit5 ++
      escapeHtml p.year ++ cardLit6).data,
    (linkLit2R ++ escapeHtml p.doi ++ linkLit3 ++ cardLit7).data, ?_⟩
  unfold createPublicationCard doiUrlOf
  simp only [h, if_true, sdata_append, List.append_assoc]
  simp [linkLit1, linkLit2, linkLit2R, List.append_assoc]

/-! ### Helper lemmas: rendering, DOM, clipboard, scroll -/

theorem renderCards_length (start : Nat) (papers : List Paper) :
    (renderCards start papers).length = papers.length := by
  induction papers generalizing start with
  | nil => rfl
  | cons p rest ih => simp [renderCards, ih]

theorem renderCards_get? (start j : Nat) (papers : List Paper) :
    (renderCards start papers).get? j =
      (papers.get? j).map fun p => createPublicationCard p (start + j) := by
  induction papers generalizing start j with
  | nil => simp [renderCards]
  | cons p rest ih =>
    cases j with
    | zero => simp [renderCards]
    | succ j =>
      simp only [renderCards, List.get?_cons_succ, ih (start + 1) j]
      have harith : start + 1 + j = start + (j + 1) := by omega
      rw [harith]

theorem mem_le_foldr_max (l : List Nat) (x : Nat) (hx : x ∈ l) :
    x ≤ l.foldr max 0 := by
  induction l with
  | nil => cases hx
  | cons a l ih =>
    rw [List.foldr_cons]
    cases List.mem_cons.mp hx with
    | inl hxa => exact hxa ▸ Nat.le_max_left a (l.foldr max 0)
    | inr hxl => exact Nat.le_trans (ih hxl) (Nat.le_max_right a (l.foldr max 0))

theorem freshId_not_mem (body : List BodyNode) (n : BodyNode) (hn : n ∈ body) :
    n.id ≠ freshId body := by
  intro h
  have hle : n.id ≤ (body.map BodyNode.id).foldr max 0 :=
    mem_le_foldr_max _ _ (List.mem_map_of_mem _ hn)
  rw [freshId] at h
  omega

theorem removeChild_append_fresh (body : List BodyNode) (tag value : String) :
    removeChildById (appendChild body { id := freshId body, tag := tag, value := value })
      (freshId body) = body := by
  unfold removeChildById appendChild
  rw [List.filter_append]
  have h1 : body.filter (fun n => decide (n.id ≠ freshId body)) = body := by
    rw [List.filter_eq_self]
    intro a ha
    simp [freshId_not_mem body a ha]
  have h2 : List.filter (fun n : BodyNode => decide (n.id ≠ freshId body))
      [{ id := freshId body, tag := tag, value := value }] = [] := by simp
  rw [h1, h2, List.append_nil]

theorem scrollInv_step (s : ScrollState) (e : ScrollEvent) (h : ScrollInv s) :
    ScrollInv (stepScroll s e) := by
  rcases h with ⟨h1, h2⟩
  cases e with
  | scroll y =>
    cases hb : s.ticking with
    | true =>
      have hstep : stepScroll s (ScrollEvent.scroll y) = { s with lastScrollY := y } := by
        simp [stepScroll, hb]
      rw [hstep]
      exact ⟨h1, h2⟩
    | false =>
      have hstep : stepScroll s (ScrollEvent.scroll y) = { lastScrollY := y, ticking := true, scheduled := s.scheduled + 1, headerScrolled := s.headerScrolled } := by
        simp [stepScroll, hb]
      rw [hb] at h2
      simp at h2
      rw [hstep]
      constructor
      · show s.scheduled + 1 ≤ 1
        omega
      · show true = true ↔ s.scheduled + 1 = 1
        simp
        omega
  | frame y =>
    by_cases hs : s.scheduled > 0
    · simp only [stepScroll, if_pos hs]
      simp [ScrollInv, updateHeader]
      omega
    · simp only [stepScroll, if_neg hs]
      exact ⟨h1, h2⟩

theorem scrollInv_run (events : List ScrollEvent) (s : ScrollState) (h : ScrollInv s) :
    ScrollInv (runEvents s events) := by
  induction events generalizing s with
  | nil => exact h
  | cons e rest ih => exact ih _ (scrollInv_step s e h)

/-! ### Claim C1 -/

/-- C1: for every non-empty publication list obtained from the fetched data
(with the card container present), the renderer fills the container with
exactly the concatenation of one card per input record; the rendered card
list has the same length as the record list, and for every position j the
j-th rendered card is the card of the j-th record — cards appear in input
order. -/
theorem C1_one_card_per_record_in_order (data : JSData) (dom : Dom)
    (cont : ElemState) (hc : dom.container = some cont)
    (hne : data.citingPapers.getD [] ≠ []) :
    (loadPublications (FetchOutcome.ok data) dom).2.container =
      some { display := "grid",
             innerHTML := String.join (renderCards 0 (data.citingPapers.getD [])) } ∧
    (renderCards 0 (data.citingPapers.getD [])).length =
      (data.citingPapers.getD []).length ∧
    ∀ j : Nat, (renderCards 0 (data.citingPapers.getD [])).get? j =
      ((data.citingPapers.getD []).get? j).map fun p => createPublicationCard p j := by
  refine ⟨?_, renderCards_length 0 _, fun j => by simpa using renderCards_get? 0 j _⟩
  unfold loadPublications
  rw [hc]
  simp [List.length_eq_zero, hne]

/-- C1 witness: the theorem applied to a concrete two-record feed on a page
with both regions present. -/
theorem C1_one_card_per_record_in_order_witness :
    domBoth.container = some { display := "grid", innerHTML := "" } ∧
    (JSData.mk (some [paperWithDoi, paperNoDoi])).citingPapers.getD [] ≠ [] ∧
    (loadPublications (FetchOutcome.ok (JSData.mk (some [paperWithDoi, paperNoDoi])))
        domBoth).2.container =
      some { display := "grid",
             innerHTML := String.join (renderCards 0 [paperWithDoi, paperNoDoi]) } :=
  ⟨rfl, by decide,
    (C1_one_card_per_record_in_order (JSData.mk (some [paperWithDoi, paperNoDoi]))
      domBoth { display := "grid", innerHTML := "" } rfl (by decide)).1⟩

/-! ### Claim C2 -/

/-- C2 counterexample: the claim as stated is false on two concrete records.
`paperDoiInjectsLink` has a (truthy) `doi` field, yet its rendered card
contains two link openings, not one: the `doi` value is spliced verbatim
into the `href` attribute, so a value containing a quote and a second
anchor breaks out of the attribute.  `paperEmptyDoi` has a `doi` field (the
empty string), yet its card contains no link at all, refuting the stated
"link iff the record has a `doi` field". -/
theorem C2_link_iff_doi_counterexample :
    truthy paperDoiInjectsLink.doi = true ∧
    countLinkOpens (createPublicationCard paperDoiInjectsLink 0) = 2 ∧
    paperEmptyDoi.doi = JSVal.str "" ∧
    countLinkOpens (createPublicationCard paperEmptyDoi 0) = 0 := by decide

/-- C2 (amended): a record with a falsy `doi` (absent, null, or empty
string) renders a card with no link opening, even when a `url` field is
present; a record with a truthy `doi` renders a card containing the link
markup whose `href` target is exactly the resolver prefix
`https://doi.org/` concatenated with the `doi` value; and when the `doi`
value contains no `<` character that link is the only link in the card. -/
theorem C2_doi_link_target (p : Paper) (i : Nat) :
    (truthy p.doi = false → countLinkOpens (createPublicationCard p i) = 0) ∧
    (truthy p.doi = true →
      List.IsInfix ("<a href=\"https://doi.org/" ++ jsToString p.doi ++ "\"").data
        (createPublicationCard p i).data) ∧
    (truthy p.doi = true → '<' ∉ (jsToString p.doi).data →
      countLinkOpens (createPublicationCard p i) = 1) :=
  ⟨countLinkOpens_card_no_doi p i, card_href_infix p i, countLinkOpens_card_doi p i⟩

/-- C2 witness: the amended theorem applied to a concrete record without a
DOI (but with a `url`) and to a concrete record with a well-formed DOI. -/
theorem C2_doi_link_target_witness :
    (truthy paperNoDoi.doi = false ∧
      countLinkOpens (createPublicationCard paperNoDoi 0) = 0) ∧
    (truthy paperWithDoi.doi = true ∧ '<' ∉ (jsToString paperWithDoi.doi).data ∧
      countLinkOpens (createPublicationCard paperWithDoi 0) = 1) :=
  ⟨⟨by decide, (C2_doi_link_target paperNoDoi 0).1 (by decide)⟩,
   ⟨by decide, by decide,
     (C2_doi_link_target paperWithDoi 0).2.2 (by decide) (by decide)⟩⟩

/-! ### Claim C3 -/

/-- C3 counterexample: the claim as stated is false at a concrete record.
The `doi` value of `paperDoiInjectsImg` contains the markup-significant
characters `"`, `<` and `>`, and the rendered card contains that value
verbatim (inside the `href` attribute), not its escaped form — the escaped
form differs, so this insertion point is unescaped and the injected
`<img src=y>` reaches the markup as structural content. -/
theorem C3_escaped_insertion_counterexample :
    List.IsInfix ("https://doi.org/x\"><img src=y>" : String).data
      (createPublicationCard paperDoiInjectsImg 0).data ∧
    escapeHtmlString "x\"><img src=y>" ≠ "x\"><img src=y>" := by decide

/-- C3 (amended): the five user-supplied fields are escaped at every point
where they are inserted as text content — the card equals the fixed
template `cardShell` with `escapeHtml` applied at the five text slots
(title, authors, journal, year, DOI display text); the escape round-trips
(entity-decoding the escaped text recovers the input exactly) and its
output contains no `<` or `>` character.  However, the `doi` value is
additionally spliced verbatim (unescaped) into the link's `href`
attribute value `doiUrlOf p`. -/
theorem C3_text_content_escaped (p : Paper) (i : Nat) :
    createPublicationCard p i =
      cardShell (Nat.repr (100 + i * 100)) (escapeHtml p.title) (escapeHtml p.authors)
        (escapeHtml p.journal) (escapeHtml p.year) (doiUrlOf p) (escapeHtml p.doi)
        (truthy p.doi) ∧
    (∀ s : String, unescapeText (escapeHtmlString s) = s) ∧
    (∀ s : String, '<' ∉ (escapeHtmlString s).data ∧ '>' ∉ (escapeHtmlString s).data) :=
  ⟨rfl, unescape_escape, fun s => escList_no_markup s.data⟩

/-- C3 witness: the amended theorem applied to a concrete record, with the
round-trip evaluated at a concrete string holding markup characters. -/
theorem C3_text_content_escaped_witness :
    createPublicationCard paperWithDoi 0 =
      cardShell (Nat.repr 100) (escapeHtml paperWithDoi.title)
        (escapeHtml paperWithDoi.authors) (escapeHtml paperWithDoi.journal)
        (escapeHtml paperWithDoi.year) (doiUrlOf paperWithDoi)
        (escapeHtml paperWithDoi.doi) (truthy paperWithDoi.doi) ∧
    unescapeText (escapeHtmlString "a<b&c>d") = "a<b&c>d" :=
  ⟨(C3_text_content_escaped paperWithDoi 0).1,
   (C3_text_content_escaped paperWithDoi 0).2.1 "a<b&c>d"⟩

/-! ### Claim C4 -/

/-- C4: with the container present, a non-success response status, a
non-parseable body, a parsed object with a missing list field, and an
empty list all produce a result identical to the network-error result;
that common result did issue the load, hides the card container (leaving
its content untouched) and shows the empty-state message — the identical
visible end state, with no other user-visible output. -/
theorem C4_failure_states_identical (dom : Dom) (cont : ElemState)
    (hc : dom.container = some cont) :
    loadPublications FetchOutcome.httpError dom =
      loadPublications FetchOutcome.networkError dom ∧
    loadPublications FetchOutcome.parseError dom =
      loadPublications FetchOutcome.networkError dom ∧
    loadPublications (FetchOutcome.ok { citingPapers := none }) dom =
      loadPublications FetchOutcome.networkError dom ∧
    loadPublications (FetchOutcome.ok { citingPapers := some [] }) dom =
      loadPublications FetchOutcome.networkError dom ∧
    (loadPublications FetchOutcome.networkError dom).1 = true ∧
    (loadPublications FetchOutcome.networkError dom).2.container =
      some { cont with display := "none" } ∧
    (loadPublications FetchOutcome.networkError dom).2.noPubMsg =
      dom.noPubMsg.map fun m => { m with display := "block" } := by
  unfold loadPublications
  rw [hc]
  simp

/-- C4 witness: the theorem applied to a concrete page with both regions. -/
theorem C4_failure_states_identical_witness :
    domBoth.container = some { display := "grid", innerHTML := "" } ∧
    loadPublications FetchOutcome.httpError domBoth =
      loadPublications FetchOutcome.networkError domBoth ∧
    (loadPublications FetchOutcome.networkError domBoth).2.container =
      some { display := "none", innerHTML := "" } :=
  ⟨rfl,
   (C4_failure_states_identical domBoth { display := "grid", innerHTML := "" } rfl).1,
   (C4_failure_states_identical domBoth
     { display := "grid", innerHTML := "" } rfl).2.2.2.2.2.1⟩

/-! ### Claim C5 -/

/-- C5: with both DOM regions present, after the load routine completes on
any fetch outcome the page is in exactly one of the two render states —
rendered feed (container shown as a grid, message hidden) or empty state
(message shown, container hidden) — and the two states are mutually
exclusive. -/
theorem C5_render_state_dichotomy (outcome : FetchOutcome) (dom : Dom)
    (cont msg : ElemState)
    (hc : dom.container = some cont) (hm : dom.noPubMsg = some msg) :
    (renderedStateP (loadPublications outcome dom).2 ∧
      ¬ emptyStateP (loadPublications outcome dom).2) ∨
    (emptyStateP (loadPublications outcome dom).2 ∧
      ¬ renderedStateP (loadPublications outcome dom).2) := by
  have hempty : ∀ r : Dom,
      r.container = some { cont with display := "none" } →
      r.noPubMsg = some { msg with display := "block" } →
      emptyStateP r ∧ ¬ renderedStateP r := by
    intro r h1 h2
    constructor
    · exact ⟨_, _, h1, h2, rfl, rfl⟩
    · rintro ⟨c, m, hc2, hm2, hdc, hdm⟩
      rw [h1] at hc2
      cases hc2
      simp at hdc
  cases outcome with
  | ok data =>
    by_cases hlen : (data.citingPapers.getD []).length = 0
    · refine Or.inr (hempty _ ?_ ?_) <;>
        simp [loadPublications, hc, hm, hlen]
    · have h1 : (loadPublications (FetchOutcome.ok data) dom).2.container = some ({ display := "grid", innerHTML := String.join (renderCards 0 (data.citingPapers.getD [])) } : ElemState) := by
        simp [loadPublications, hc, hm, hlen]
      have h2 : (loadPublications (FetchOutcome.ok data) dom).2.noPubMsg =
          some { msg with display := "none" } := by
        simp [loadPublications, hc, hm, hlen]
      refine Or.inl ⟨⟨_, _, h1, h2, rfl, rfl⟩, ?_⟩
      rintro ⟨c, m, hc2, hm2, hdc, hdm⟩
      rw [h1] at hc2
      cases hc2
      simp at hdc
  | networkError =>
    refine Or.inr (hempty _ ?_ ?_) <;> simp [loadPublications, hc, hm]
  | httpError =>
    refine Or.inr (hempty _ ?_ ?_) <;> simp [loadPublications, hc, hm]
  | parseError =>
    refine Or.inr (hempty _ ?_ ?_) <;> simp [loadPublications, hc, hm]

/-- C5 witness: the dichotomy at a concrete page and outcome. -/
theorem C5_render_state_dichotomy_witness :
    domBoth.container = some { display := "grid", innerHTML := "" } ∧
    domBoth.noPubMsg = some { display := "none", innerHTML := "No publications" } ∧
    ((renderedStateP (loadPublications FetchOutcome.networkError domBoth).2 ∧
        ¬ emptyStateP (loadPublications FetchOutcome.networkError domBoth).2) ∨
      (emptyStateP (loadPublications FetchOutcome.networkError domBoth).2 ∧
        ¬ renderedStateP (loadPublications FetchOutcome.networkError domBoth).2)) :=
  ⟨rfl, rfl,
    C5_render_state_dichotomy FetchOutcome.networkError domBoth
      { display := "grid", innerHTML := "" }
      { display := "none", innerHTML := "No publications" } rfl rfl⟩

/-! ### Claim C6 -/

/-- C6: for every environment behaviour and every citation text, the
clipboard-copy operation terminates normally (never as an unhandled
rejection) and shows exactly one toast: the success toast when the
clipboard write resolves, the success toast when the write rejects but the
fallback `execCommand` returns, and the failure toast when the fallback
throws as well. -/
theorem C6_copy_always_notifies (env : ClipEnv) (text : String)
    (body : List BodyNode) :
    ∃ finalBody : List BodyNode,
      copyToClipboard env text body =
        Except.ok ((if env.clipboardWriteOk then Toast.copied
          else if env.execCommandThrows then Toast.failed else Toast.copied),
          finalBody) := by
  cases henv : env.clipboardWriteOk with
  | true =>
    exact ⟨body,
      by simp [copyToClipboard, tryCatchE, navClipboardWriteText, henv, Except.map]⟩
  | false =>
    cases hexec : env.execCommandThrows with
    | true =>
      refine ⟨removeChildById (appendChild body
        { id := freshId body, tag := "textarea", value := text }) (freshId body), ?_⟩
      simp [copyToClipboard, tryCatchE, navClipboardWriteText, execCommandCopy, henv,
        hexec, Except.map, Except.bind]
    | false =>
      refine ⟨removeChildById (appendChild body
        { id := freshId body, tag := "textarea", value := text }) (freshId body), ?_⟩
      simp [copyToClipboard, tryCatchE, navClipboardWriteText, execCommandCopy, henv,
        hexec, Except.map, Except.bind]

/-! ### Claim C7 -/

/-- C7: when the card container element is absent from the page, the load
routine issues no fetch and returns the DOM unchanged — in particular the
empty-state message element is untouched — for every fetch outcome. -/
theorem C7_missing_container_inert (outcome : FetchOutcome) (dom : Dom)
    (hc : dom.container = none) :
    loadPublications outcome dom = (false, dom) := by
  unfold loadPublications
  rw [hc]

/-- C7 witness: the theorem applied to a concrete page without the card
container. -/
theorem C7_missing_container_inert_witness :
    domNoContainer.container = none ∧
    loadPublications FetchOutcome.networkError domNoContainer =
      (false, domNoContainer) :=
  ⟨rfl, C7_missing_container_inert FetchOutcome.networkError domNoContainer rfl⟩

/-! ### Claim C8 -/

/-- C8: for every sequence of scroll and animation-frame events from the
initial state, at most one header-update callback is pending and it is
pending exactly while the `ticking` flag is set; a scroll event arriving
while the flag is set schedules nothing new; and the flag goes from set to
cleared only by a frame event that actually runs the pending
`updateHeader` callback. -/
theorem C8_scroll_updates_coalesced (events : List ScrollEvent) :
    ScrollInv (runEvents initScrollState events) ∧
    (∀ (s : ScrollState) (y : Int), s.ticking = true →
      (stepScroll s (ScrollEvent.scroll y)).scheduled = s.scheduled ∧
      (stepScroll s (ScrollEvent.scroll y)).ticking = true) ∧
    (∀ (s : ScrollState) (e : ScrollEvent), s.ticking = true →
      (stepScroll s e).ticking = false →
      ∃ y : Int, e = ScrollEvent.frame y ∧ s.scheduled > 0 ∧
        stepScroll s e = updateHeader y { s with scheduled := s.scheduled - 1 }) := by
  refine ⟨scrollInv_run events initScrollState (by simp [ScrollInv, initScrollState]),
    ?_, ?_⟩
  · intro s y hst
    simp [stepScroll, hst]
  · intro s e hst hcleared
    cases e with
    | scroll y =>
      simp [stepScroll, hst] at hcleared
    | frame y =>
      by_cases hs : s.scheduled > 0
      · exact ⟨y, rfl, hs, by simp [stepScroll, hs]⟩
      · simp only [stepScroll, if_neg hs] at hcleared
        rw [hst] at hcleared
        cases hcleared

/-- C8 witness: the invariant on a concrete event sequence, and the
no-new-scheduling conjunct discharged at a concrete ticking state. -/
theorem C8_scroll_updates_coalesced_witness :
    ScrollInv (runEvents initScrollState
      [ScrollEvent.scroll 150, ScrollEvent.frame 150, ScrollEvent.scroll 50,
        ScrollEvent.scroll 80, ScrollEvent.frame 80]) ∧
    (stepScroll { lastScrollY := 0, ticking := true, scheduled := 1, headerScrolled := false } (ScrollEvent.scroll 42)).scheduled = 1 :=
  ⟨(C8_scroll_updates_coalesced
      [ScrollEvent.scroll 150, ScrollEvent.frame 150, ScrollEvent.scroll 50,
        ScrollEvent.scroll 80, ScrollEvent.frame 80]).1,
   ((C8_scroll_updates_coalesced []).2.1
     { lastScrollY := 0, ticking := true, scheduled := 1, headerScrolled := false }
     42 rfl).1⟩

/-! ### Claim C9 -/

/-- C9: `escapeHtml` maps each falsy input — `undefined`, `null`, the empty
string, and the number 0 — to the empty string, and a record with every
field absent renders its title slot as empty text (`<h4></h4>` appears in
the card) with the literal text `undefined` appearing nowhere in the
card. -/
theorem C9_falsy_fields_render_empty :
    escapeHtml JSVal.undef = "" ∧ escapeHtml JSVal.null = "" ∧
    escapeHtml (JSVal.str "") = "" ∧ escapeHtml (JSVal.num 0) = "" ∧
    List.IsInfix ("<h4></h4>" : String).data
      (createPublicationCard paperAllUndef 0).data ∧
    ¬ List.IsInfix ("undefined" : String).data
      (createPublicationCard paperAllUndef 0).data := by decide

/-! ### Claim C10 -/

/-- C10: the clipboard operation always returns the document body exactly
as it found it: the success path never appends the hidden text field, and
the fallback path removes the text field it appended both when
`execCommand` returns and when it throws — no invocation leaves an extra
element in the page. -/
theorem C10_fallback_removes_textarea (env : ClipEnv) (text : String)
    (body : List BodyNode) :
    ∃ toast : Toast, copyToClipboard env text body = Except.ok (toast, body) := by
  cases henv : env.clipboardWriteOk with
  | true =>
    exact ⟨Toast.copied,
      by simp [copyToClipboard, tryCatchE, navClipboardWriteText, henv, Except.map]⟩
  | false =>
    cases hexec : env.execCommandThrows with
    | true =>
      refine ⟨Toast.failed, ?_⟩
      simp [copyToClipboard, tryCatchE, navClipboardWriteText, execCommandCopy, henv,
        hexec, Except.map, Except.bind, removeChild_append_fresh]
    | false =>
      refine ⟨Toast.copied, ?_⟩
      simp [copyToClipboard, tryCatchE, navClipboardWriteText, execCommandCopy, henv,
        hexec, Except.map, Except.bind, removeChild_append_fresh]
